import Mathlib

/-!
Shallow embedding of the monastery-map frontend (src/unnamed/part_000) and the
two Express backend variants (src/index.js), with proofs of the spec claims.

Conventions of the embedding:
* JS strings are Lean `String`s; `toLowerCase` is modelled ASCII-wise via
  `Char.toLower` (all data in the program is ASCII).
* The latitude/longitude literals are only ever displayed or passed opaquely to
  the map library, never computed with, so they are embedded as their decimal
  source literals (`String`s).
* `String.prototype.includes` is modelled by `jsIncludes` below; note that in
  JS `s.includes("")` is `true` for every `s`, which the model reproduces.
-/

/-- A record of `MONASTERY_LOCATIONS` (part_000, lines 2-12). -/
structure Monastery where
  name : String
  lat : String
  lng : String
  sect : String
  location : String
deriving DecidableEq, Repr

/-- The fixed 9-record catalog `MONASTERY_LOCATIONS` (part_000, lines 2-12). -/
def MONASTERY_LOCATIONS : List Monastery :=
  [ ⟨"Rumtek Monastery", "27.2753", "88.5447", "Kagyu", "East Sikkim"⟩,
    ⟨"Pemayangtse Monastery", "27.3193", "88.2435", "Nyingma", "West Sikkim"⟩,
    ⟨"Tashiding Monastery", "27.3060", "88.2932", "Nyingma", "West Sikkim"⟩,
    ⟨"Enchey Monastery", "27.3370", "88.6143", "Nyingma", "East Sikkim"⟩,
    ⟨"Phodong Monastery", "27.4208", "88.5833", "Kagyu", "North Sikkim"⟩,
    ⟨"Sanga Choeling Monastery", "27.3069", "88.2415", "Nyingma", "West Sikkim"⟩,
    ⟨"Dubdi Monastery", "27.3592", "88.3533", "Nyingma", "West Sikkim"⟩,
    ⟨"Lingdum Monastery (Ranka)", "27.3005", "88.5710", "Kagyu", "East Sikkim"⟩,
    ⟨"Do Drul Chorten", "27.3277", "88.6186", "Nyingma", "East Sikkim"⟩ ]

/-- JS `String.prototype.toLowerCase` (ASCII fragment, sufficient for the data):
maps `Char.toLower` over the characters. -/
def jsToLower (s : String) : String := String.mk (s.toList.map Char.toLower)

/-- Does the character list start with `needle`? (helper for `jsIncludes`). -/
def leadsWith : List Char → List Char → Bool
  | [], _ => true
  | _ :: _, [] => false
  | a :: as, b :: bs => a == b && leadsWith as bs

/-- Does `hay` contain `needle` as a contiguous sublist? -/
def containsSub (needle : List Char) : List Char → Bool
  | [] => needle.isEmpty
  | c :: t => leadsWith needle (c :: t) || containsSub needle t

/-- JS `s.includes(sub)`. -/
def jsIncludes (s sub : String) : Bool := containsSub sub.toList s.toList

/-- The per-record predicate of `filterMonasteries` (part_000, lines 78-84).
`searchTerm` is the already-lower-cased text input. -/
def matchesMonastery (sect location searchTerm : String) (m : Monastery) : Bool :=
  let matchesSect := sect == "all" || m.sect == sect
  let matchesLocation := location == "all" || m.location == location
  let matchesSearch := jsIncludes (jsToLower m.name) searchTerm ||
                       jsIncludes (jsToLower m.location) searchTerm
  matchesSect && matchesLocation && matchesSearch

/-- `window.filterMonasteries` (part_000, lines 73-92), as a function of the
catalog and the three UI control values; returns the filtered list.  The code
lower-cases the raw search input once before filtering. -/
def filterMonasteries (catalog : List Monastery)
    (sect location searchInput : String) : List Monastery :=
  let searchTerm := jsToLower searchInput
  catalog.filter (matchesMonastery sect location searchTerm)

/-- The feedback text set by `filterMonasteries` (part_000, line 90). -/
def feedbackText (filtered : List Monastery) : String :=
  "Found " ++ toString filtered.length ++ " monasteries matching your criteria."

/-! ### MapView: markers, popups and the initialisation sequence -/

/-- Is a character left unescaped by JS `encodeURIComponent`? -/
def uriUnreserved (c : Char) : Bool :=
  c.isAlpha || c.isDigit ||
    c ∈ ['-', '_', '.', '!', '~', '*', '\'', '(', ')']

/-- One hexadecimal digit (upper case), for percent-escapes. -/
def hexDigit (n : Nat) : Char :=
  if n < 10 then Char.ofNat ('0'.toNat + n) else Char.ofNat ('A'.toNat + n - 10)

/-- The UTF-8 bytes of a character, as numbers. -/
def utf8Bytes (c : Char) : List Nat :=
  let n := c.toNat
  if n < 0x80 then [n]
  else if n < 0x800 then [0xC0 + n / 0x40, 0x80 + n % 0x40]
  else if n < 0x10000 then
    [0xE0 + n / 0x1000, 0x80 + n / 0x40 % 0x40, 0x80 + n % 0x40]
  else
    [0xF0 + n / 0x40000, 0x80 + n / 0x1000 % 0x40, 0x80 + n / 0x40 % 0x40,
     0x80 + n % 0x40]

/-- `%HH` escape of one byte. -/
def percentByte (b : Nat) : String :=
  String.mk ['%', hexDigit (b / 16), hexDigit (b % 16)]

/-- JS `encodeURIComponent`. -/
def encodeURIComponent (s : String) : String :=
  String.join (s.toList.map fun c =>
    if uriUnreserved c then String.mk [c]
    else String.join ((utf8Bytes c).map percentByte))

/-- The `googleMapsUrl` template literal (part_000, line 48). -/
def googleMapsUrl (m : Monastery) : String :=
  "https://www.google.com/maps/@" ++ m.lat ++ "," ++ m.lng ++ ",18z/data=!3m1!1e3"

/-- The `popupContent` template literal (part_000, lines 50-62). -/
def popupContent (m : Monastery) : String :=
  "\n            <div>\n                <strong>" ++ m.name ++
  "</strong><br>\n                Sect: " ++ m.sect ++
  "<br>\n                Location: " ++ m.location ++
  "<br>\n                <a href=\"monastery_detail.html?name=" ++
  encodeURIComponent m.name ++
  "\" style=\"color: #003366; font-weight: bold; display: block; margin-top: 5px;\">View Details &rarr;</a>\n                \n                <!-- ✅ UPDATED: Google Maps Link now points to Satellite/Globe View -->\n                <a href=\"" ++
  googleMapsUrl m ++
  "\" target=\"_blank\" style=\"color: #cc0000; font-weight: bold; display: block; margin-top: 5px;\">\n                    View on Google Maps (Satellite) &rarr;\n                </a>\n            </div>\n        "

/-- A Leaflet marker as this program uses it: its position (`L.marker([lat,lng])`),
its bound popup, and the `options.monastery` record attached for filtering. -/
structure Marker where
  latlng : String × String
  popup : String
  monastery : Monastery
deriving DecidableEq, Repr

/-- The marker built for one record (part_000, lines 63-67). -/
def mkMarker (m : Monastery) : Marker :=
  ⟨(m.lat, m.lng), popupContent m, m⟩

/-- The mutable module state of part_000: whether `map` is initialised, whether
the `markers` layer group is attached to the current map, and the markers
currently in the group. -/
structure MapState where
  mapExists : Bool
  markersOnMap : Bool
  markerList : List Marker
deriving DecidableEq, Repr

/-- `markers.clearLayers()`. -/
def clearLayers (s : MapState) : MapState := { s with markerList := [] }

/-- `markers.addLayer(marker)`. -/
def addLayer (s : MapState) (mk : Marker) : MapState :=
  { s with markerList := s.markerList ++ [mk] }

/-- `addMarkers(locations)` (part_000, lines 41-70): clear the group, then add
one marker per record in input order. -/
def addMarkers (s : MapState) (locations : List Monastery) : MapState :=
  locations.foldl (fun st m => addLayer st (mkMarker m)) (clearLayers s)

/-- The primitive effects of `initMap` and `filterMonasteries` on `MapState`. -/
inductive MapEvent where
  | removeMap
  | createMap
  | addTileLayer
  | addMarkersEvt (locations : List Monastery)
  | attachMarkers
deriving DecidableEq, Repr

/-- State transition of one event.  `createMap` yields a fresh viewport the
(pre-existing) marker group is not yet attached to. -/
def step (s : MapState) : MapEvent → MapState
  | .removeMap => { s with mapExists := false, markersOnMap := false }
  | .createMap => { s with mapExists := true, markersOnMap := false }
  | .addTileLayer => s
  | .addMarkersEvt locs => addMarkers s locs
  | .attachMarkers => { s with markersOnMap := true }

/-- `initMap` (part_000, lines 20-38) as its event sequence: optional removal
of an existing map, map creation, tile layer, initial `addMarkers`, and only
then `markers.addTo(map)`. -/
def initMapTrace (s : MapState) : List MapEvent :=
  (if s.mapExists then [.removeMap] else []) ++
    [.createMap, .addTileLayer, .addMarkersEvt MONASTERY_LOCATIONS, .attachMarkers]

/-- Run a sequence of events. -/
def runTrace (s : MapState) (es : List MapEvent) : MapState := es.foldl step s

/-- If the event adds markers, record whether the layer is attached right now. -/
def addFlag (s : MapState) : MapEvent → List Bool
  | .addMarkersEvt _ => [s.markersOnMap]
  | _ => []

/-- For each `addMarkersEvt` in the trace, whether the marker layer was already
attached to the viewport at the moment the markers were added. -/
def attachFlagsAtAdds (s : MapState) : List MapEvent → List Bool
  | [] => []
  | e :: t => addFlag s e ++ attachFlagsAtAdds (step s e) t

/-- The state at page load: no map yet, the `L.layerGroup()` created at module
top level is not attached to anything, and holds no markers. -/
def pageLoadState : MapState := ⟨false, false, []⟩

/-! ### SlideShow (part_000, lines 106-133)

`currentSlide` is a JS number and `slides.length` a nonnegative count; the
transitions are embedded over `ℤ`.  For the operands arising here (dividend
nonnegative, divisor positive) the JS `%` operator agrees with `Int.emod`. -/

/-- `nextSlide` (part_000, line 120): `(currentSlide + 1) % slides.length`. -/
def nextSlide (currentSlide count : ℤ) : ℤ := (currentSlide + 1) % count

/-- `prevSlide` (part_000, line 125):
`(currentSlide - 1 + slides.length) % slides.length`. -/
def prevSlide (currentSlide count : ℤ) : ℤ := (currentSlide - 1 + count) % count

/-! ### Backend (src/index.js): two Express variants

The handlers are embedded as pure functions over the user/photo stores.
`bcrypt.hash` is an opaque parameter `hash`, `bcrypt.compare` an opaque
parameter `verify`, and `jwt.sign` an opaque parameter `sign` applied to the
payload fields the code signs (username and role; the database id and expiry
are folded into the opaque function).  A JS falsy (missing or empty) request
field is modelled as the empty string.  Mongo's duplicate-key error (code
11000) on `User.create` is modelled by checking the unique `username` index at
creation; `.sort({uploadDate: -1})` is a most-recent-first sort. -/

/-- A stored user document: the password field holds the bcrypt hash. -/
structure User where
  username : String
  password : String
  role : String
deriving DecidableEq, Repr

/-- A stored photo document. `uploadDate` is a timestamp. -/
structure Photo where
  filename : String
  filepath : String
  uploadDate : Nat
deriving DecidableEq, Repr

/-- JSON response bodies produced by the signup/login handlers. -/
inductive ApiBody where
  | err (msg : String)
  | signupOk (message user : String)
  | signupOkRoled (message username role : String)
  | loginOk (message token role username : String)
deriving DecidableEq, Repr

/-- An HTTP response: status code and JSON body. -/
structure HttpResponse where
  status : Nat
  body : ApiBody
deriving DecidableEq, Repr

/-- `POST /api/signup`, serverless variant (index.js lines 53-74): presence
check, hash, first-user-becomes-admin, create (409 on duplicate username).
There is no password-length check in this variant. -/
def signupServerless (hash : String → String) (users : List User)
    (username pwd : String) : HttpResponse × List User :=
  if username = "" ∨ pwd = "" then
    (⟨400, .err "Username and password are required"⟩, users)
  else
    let hashedPassword := hash pwd
    let userCount := users.length
    let role := if userCount = 0 then "admin" else "user"
    if users.any (fun u => u.username == username) then
      (⟨409, .err "Username already exists."⟩, users)
    else
      (⟨201, .signupOk "User registered successfully" username⟩,
       users ++ [⟨username, hashedPassword, role⟩])

/-- `POST /api/signup`, server variant (index.js lines 249-276): presence
check, then the minimum-length-6 password check, first-user-becomes-admin,
hash, create (409 on duplicate username). -/
def signupServer (hash : String → String) (users : List User)
    (username pwd : String) : HttpResponse × List User :=
  if username = "" ∨ pwd = "" then
    (⟨400, .err "Username and password are required"⟩, users)
  else if pwd.length < 6 then
    (⟨400, .err "Password must be at least 6 characters long"⟩, users)
  else
    let userCount := users.length
    let role := if userCount = 0 then "admin" else "user"
    let hashedPassword := hash pwd
    if users.any (fun u => u.username == username) then
      (⟨409, .err "Username already exists."⟩, users)
    else
      (⟨201, .signupOkRoled "User registered successfully!" username role⟩,
       users ++ [⟨username, hashedPassword, role⟩])

/-- `POST /api/login`, serverless variant (index.js lines 77-95):
`User.findOne({username})`, then `bcrypt.compare`; both failure branches
answer 401 with body `{error: 'Invalid credentials'}`. -/
def loginServerless (verify : String → String → Bool)
    (sign : String → String → String) (users : List User)
    (username pwd : String) : HttpResponse :=
  match users.find? (fun u => u.username == username) with
  | none => ⟨401, .err "Invalid credentials"⟩
  | some user =>
    if verify pwd user.password then
      ⟨200, .loginOk "Login successful" (sign user.username user.role)
        user.role user.username⟩
    else ⟨401, .err "Invalid credentials"⟩

/-- `POST /api/login`, server variant (index.js lines 279-296); the handler
body is identical to the serverless variant's. -/
def loginServer (verify : String → String → Bool)
    (sign : String → String → String) (users : List User)
    (username pwd : String) : HttpResponse :=
  match users.find? (fun u => u.username == username) with
  | none => ⟨401, .err "Invalid credentials"⟩
  | some user =>
    if verify pwd user.password then
      ⟨200, .loginOk "Login successful" (sign user.username user.role)
        user.role user.username⟩
    else ⟨401, .err "Invalid credentials"⟩

/-- A login request fails authentication: no user with that username, or the
password comparison fails. -/
def loginFails (verify : String → String → Bool) (users : List User)
    (username pwd : String) : Bool :=
  match users.find? (fun u => u.username == username) with
  | none => true
  | some user => ! verify pwd user.password

/-- Most-recent-first order on photos. -/
def dateDesc (a b : Photo) : Prop := b.uploadDate ≤ a.uploadDate

instance : DecidableRel dateDesc := fun a b =>
  inferInstanceAs (Decidable (b.uploadDate ≤ a.uploadDate))

instance : IsTotal Photo dateDesc := ⟨fun a b => Nat.le_total b.uploadDate a.uploadDate⟩

instance : IsTrans Photo dateDesc := ⟨fun _ _ _ hab hbc => Nat.le_trans hbc hab⟩

/-- `Photo.find().sort({ uploadDate: -1 })`: the store sorted most-recent-first
(modelled by a stable sort under `dateDesc`). -/
def sortByDateDesc (l : List Photo) : List Photo := l.insertionSort dateDesc

/-- The hard-coded `mockPhotos` of the serverless variant (index.js lines
132-135); the source entries carry only a `filepath`, the absent fields are
modelled as `""`/`0`. -/
def mockPhotos : List Photo :=
  [⟨"", "/static/rumtek.jpg", 0⟩, ⟨"", "/static/pemayangtse.jpg", 0⟩]

/-- `GET /api/photos`, serverless variant (index.js lines 129-155): sorted
store, but the mock placeholder list when the store is empty. -/
def getPhotosServerless (store : List Photo) : Nat × List Photo :=
  let photos := sortByDateDesc store
  if photos.length = 0 then (200, mockPhotos) else (200, photos)

/-- `GET /api/photos`, server variant (index.js lines 317-326): the sorted
store, unconditionally. -/
def getPhotosServer (store : List Photo) : Nat × List Photo :=
  (200, sortByDateDesc store)

/-- The per-record condition exactly as the spec phrases it (category wildcard
or tag equality; region wildcard or tag equality; searchText empty or its
lower-cased form a substring of the lower-cased name or lower-cased region).
This is the spec-side definition used for the refinement claim C1; it is
compared against `matchesMonastery`, which is transcribed from the source. -/
def specFilterPred (category region searchText : String) (m : Monastery) : Bool :=
  (category == "all" || m.sect == category) &&
  (region == "all" || m.location == region) &&
  (searchText == "" ||
   jsIncludes (jsToLower m.name) (jsToLower searchText) ||
   jsIncludes (jsToLower m.location) (jsToLower searchText))

theorem containsSub_nil (l : List Char) : containsSub [] l = true := by
  cases l <;> simp [containsSub, leadsWith]

theorem jsIncludes_empty (s : String) : jsIncludes s "" = true := by
  simp [jsIncludes, containsSub_nil]

theorem jsToLower_empty : jsToLower "" = "" := rfl

theorem matchesMonastery_eq_specFilterPred (category region searchText : String)
    (m : Monastery) :
    matchesMonastery category region (jsToLower searchText) m =
      specFilterPred category region searchText m := by
  by_cases h : searchText = ""
  · subst h
    simp [matchesMonastery, specFilterPred, jsIncludes_empty, jsToLower_empty]
  · simp only [matchesMonastery, specFilterPred]
    have hne : (searchText == "") = false := by
      simp [h]
    rw [hne]
    simp

/-- C1: `filterMonasteries` returns exactly the ordered subsequence of the
catalog's records satisfying the spec's three-predicate conjunction (category
wildcard/equality, region wildcard/equality, searchText empty or case-insensitive
substring of name or region). -/
theorem filterMonasteries_eq_spec (catalog : List Monastery)
    (category region searchText : String) :
    filterMonasteries catalog category region searchText =
      catalog.filter (specFilterPred category region searchText) := by
  unfold filterMonasteries
  exact List.filter_congr fun m _ =>
    matchesMonastery_eq_specFilterPred category region searchText m

/-- C3: with both selectors at the wildcard `"all"` and empty search text, the
filter returns the whole catalog unchanged, in order. -/
theorem filterMonasteries_wildcard_id (catalog : List Monastery) :
    filterMonasteries catalog "all" "all" "" = catalog := by
  unfold filterMonasteries
  rw [List.filter_eq_self]
  intro m _
  simp [matchesMonastery, jsToLower_empty, jsIncludes_empty]

/-- C2: on the fixed 9-record catalog, criteria (category "Nyingma", region
"all", empty search) select exactly the six Nyingma records in catalog order,
and the feedback text reads "Found 6 monasteries matching your criteria." -/
theorem filter_nyingma_scenario :
    filterMonasteries MONASTERY_LOCATIONS "Nyingma" "all" "" =
      [ ⟨"Pemayangtse Monastery", "27.3193", "88.2435", "Nyingma", "West Sikkim"⟩,
        ⟨"Tashiding Monastery", "27.3060", "88.2932", "Nyingma", "West Sikkim"⟩,
        ⟨"Enchey Monastery", "27.3370", "88.6143", "Nyingma", "East Sikkim"⟩,
        ⟨"Sanga Choeling Monastery", "27.3069", "88.2415", "Nyingma", "West Sikkim"⟩,
        ⟨"Dubdi Monastery", "27.3592", "88.3533", "Nyingma", "West Sikkim"⟩,
        ⟨"Do Drul Chorten", "27.3277", "88.6186", "Nyingma", "East Sikkim"⟩ ] ∧
    feedbackText (filterMonasteries MONASTERY_LOCATIONS "Nyingma" "all" "") =
      "Found 6 monasteries matching your criteria." := by
  constructor <;> decide

theorem foldl_addLayer (st : MapState) (locs : List Monastery) :
    locs.foldl (fun s m => addLayer s (mkMarker m)) st =
      { st with markerList := st.markerList ++ locs.map mkMarker } := by
  induction locs generalizing st with
  | nil => simp
  | cons m t ih =>
    rw [List.foldl_cons, ih]
    simp [addLayer, List.append_assoc]

theorem addMarkers_eq (s : MapState) (locs : List Monastery) :
    addMarkers s locs = { s with markerList := locs.map mkMarker } := by
  simp [addMarkers, foldl_addLayer, clearLayers]

/-- C4: after `addMarkers`, the marker group holds exactly the markers built
from the input records, in input order: one marker per record, each placed at
its record's coordinates, and nothing surviving from the previous render. -/
theorem addMarkers_exact (s : MapState) (locs : List Monastery) :
    (addMarkers s locs).markerList = locs.map mkMarker ∧
    (addMarkers s locs).markerList.length = locs.length ∧
    (∀ mk ∈ (addMarkers s locs).markerList,
      ∃ m ∈ locs, mk = mkMarker m ∧ mk.latlng = (m.lat, m.lng)) := by
  rw [addMarkers_eq]
  refine ⟨rfl, by simp, ?_⟩
  intro mk hmk
  simp only [List.mem_map] at hmk
  obtain ⟨m, hm, rfl⟩ := hmk
  exact ⟨m, hm, rfl, rfl⟩

/-- Witness for C4 at a concrete prior state and input. -/
theorem addMarkers_exact_witness :
    (addMarkers ⟨true, true, [mkMarker ⟨"Old", "0", "0", "Kagyu", "East Sikkim"⟩]⟩
        MONASTERY_LOCATIONS).markerList = MONASTERY_LOCATIONS.map mkMarker ∧
    (addMarkers ⟨true, true, [mkMarker ⟨"Old", "0", "0", "Kagyu", "East Sikkim"⟩]⟩
        MONASTERY_LOCATIONS).markerList.length = MONASTERY_LOCATIONS.length ∧
    (∀ mk ∈ (addMarkers ⟨true, true, [mkMarker ⟨"Old", "0", "0", "Kagyu", "East Sikkim"⟩]⟩
        MONASTERY_LOCATIONS).markerList,
      ∃ m ∈ MONASTERY_LOCATIONS, mk = mkMarker m ∧ mk.latlng = (m.lat, m.lng)) :=
  addMarkers_exact ⟨true, true, [mkMarker ⟨"Old", "0", "0", "Kagyu", "East Sikkim"⟩]⟩
    MONASTERY_LOCATIONS

/-- C5 counterexample: in the page-load run of `initMap`, the one (initial)
`addMarkers` happens while the marker layer is not yet attached to the map —
`markers.addTo(map)` only runs afterwards (part_000, lines 34 and 37). -/
theorem initMap_adds_before_attach :
    attachFlagsAtAdds pageLoadState (initMapTrace pageLoadState) = [false] ∧
    (attachFlagsAtAdds pageLoadState (initMapTrace pageLoadState)).all
        (fun b => b) = false := by
  constructor <;> decide

theorem attachFlagsAtAdds_append (s : MapState) (es fs : List MapEvent) :
    attachFlagsAtAdds s (es ++ fs) =
      attachFlagsAtAdds s es ++ attachFlagsAtAdds (runTrace s es) fs := by
  induction es generalizing s with
  | nil => rfl
  | cons e t ih =>
    simp [attachFlagsAtAdds, runTrace, ih (step s e), List.append_assoc]

theorem attachFlagsAtAdds_renders (rs : List (List Monastery)) (s : MapState)
    (h : s.markersOnMap = true) :
    attachFlagsAtAdds s (rs.map MapEvent.addMarkersEvt) = rs.map (fun _ => true) := by
  induction rs generalizing s with
  | nil => rfl
  | cons r t ih =>
    have hstep : (step s (.addMarkersEvt r)).markersOnMap = true := by
      simp [step, addMarkers_eq, h]
    simp [attachFlagsAtAdds, addFlag, h, ih _ hstep]

/-- C5 amended: in the page-load execution, the initial render inside `initMap`
adds markers while the layer is not yet attached (flag `false`), the layer is
attached when `initMap` finishes, and every subsequent filter-triggered render
adds markers with the layer already attached (flag `true`). -/
theorem initMap_attach_order (renders : List (List Monastery)) :
    attachFlagsAtAdds pageLoadState
        (initMapTrace pageLoadState ++ renders.map MapEvent.addMarkersEvt) =
      false :: renders.map (fun _ => true) := by
  rw [attachFlagsAtAdds_append]
  have h1 : attachFlagsAtAdds pageLoadState (initMapTrace pageLoadState) = [false] := by
    decide
  have h2 : (runTrace pageLoadState (initMapTrace pageLoadState)).markersOnMap = true := by
    decide
  rw [h1, attachFlagsAtAdds_renders renders _ h2]
  rfl

theorem nextSlide_iter (count i : ℤ) (k : ℕ) (h0 : 0 ≤ i) (hi : i < count) :
    (fun j => nextSlide j count)^[k] i = (i + k) % count := by
  induction k with
  | zero => simpa using (Int.emod_eq_of_lt h0 hi).symm
  | succ k ih =>
    rw [Function.iterate_succ_apply', ih]
    simp only [nextSlide]
    rw [Int.emod_add_emod]
    congr 1
    push_cast
    ring

theorem prevSlide_iter (count i : ℤ) (k : ℕ) (h0 : 0 ≤ i) (hi : i < count) :
    (fun j => prevSlide j count)^[k] i = (i + k * (count - 1)) % count := by
  induction k with
  | zero => simpa using (Int.emod_eq_of_lt h0 hi).symm
  | succ k ih =>
    rw [Function.iterate_succ_apply', ih]
    simp only [prevSlide]
    rw [show ∀ x : ℤ, x - 1 + count = x + (count - 1) from fun x => by ring,
        Int.emod_add_emod]
    congr 1
    push_cast
    ring

/-- C6: for any slide count above 1 and any in-range index, `nextSlide` and
`prevSlide` stay in `[0, count)`, and `count` consecutive calls of either
return the index to its original value. -/
theorem slideShow_cycle (count i : ℤ) (hc : 1 < count) (h0 : 0 ≤ i)
    (hi : i < count) :
    (0 ≤ nextSlide i count ∧ nextSlide i count < count) ∧
    (0 ≤ prevSlide i count ∧ prevSlide i count < count) ∧
    (fun j => nextSlide j count)^[count.toNat] i = i ∧
    (fun j => prevSlide j count)^[count.toNat] i = i := by
  have hpos : 0 < count := by omega
  refine ⟨⟨Int.emod_nonneg _ (by omega), Int.emod_lt_of_pos _ hpos⟩,
          ⟨Int.emod_nonneg _ (by omega), Int.emod_lt_of_pos _ hpos⟩, ?_, ?_⟩
  · rw [nextSlide_iter count i _ h0 hi, Int.toNat_of_nonneg hpos.le,
        show i + count = i + count * 1 by ring, Int.add_mul_emod_self_left]
    exact Int.emod_eq_of_lt h0 hi
  · rw [prevSlide_iter count i _ h0 hi, Int.toNat_of_nonneg hpos.le,
        Int.add_mul_emod_self_left]
    exact Int.emod_eq_of_lt h0 hi

/-- C7 counterexample: the serverless signup accepts the 5-character password
"12345" — it answers 201 and creates the user; there is no length check in
that variant. -/
theorem signupServerless_short_password_accepted :
    "12345".length < 6 ∧
    (signupServerless (fun s => s) [] "alice" "12345").1.status = 201 ∧
    (signupServerless (fun s => s) [] "alice" "12345").2 =
      [⟨"alice", "12345", "admin"⟩] := by
  refine ⟨by decide, ?_, ?_⟩ <;> decide

/-- C7 amended: only the server variant rejects passwords shorter than 6
characters, with status 400 and no user created. -/
theorem signupServer_short_password_rejected (hash : String → String)
    (users : List User) (username pwd : String) (h : pwd.length < 6) :
    (signupServer hash users username pwd).1.status = 400 ∧
    (signupServer hash users username pwd).2 = users := by
  by_cases h1 : username = "" ∨ pwd = ""
  · have e : signupServer hash users username pwd =
        (⟨400, .err "Username and password are required"⟩, users) := by
      unfold signupServer
      rw [if_pos h1]
    rw [e]
    exact ⟨rfl, rfl⟩
  · have e : signupServer hash users username pwd =
        (⟨400, .err "Password must be at least 6 characters long"⟩, users) := by
      unfold signupServer
      rw [if_neg h1, if_pos h]
    rw [e]
    exact ⟨rfl, rfl⟩

/-- Witness for the amended C7 at a concrete short password. -/
theorem signupServer_short_password_rejected_witness :
    "123".length < 6 ∧
    (signupServer (fun s => s) [] "bob" "123").1.status = 400 ∧
    (signupServer (fun s => s) [] "bob" "123").2 = [] :=
  ⟨by decide, signupServer_short_password_rejected (fun s => s) [] "bob" "123" (by decide)⟩

/-- C8: in both variants, a successful signup (status 201) appends exactly one
user, whose role is "admin" iff the store held zero users at signup time. -/
theorem signup_first_user_admin (hash : String → String) (users : List User)
    (username pwd : String) :
    ((signupServerless hash users username pwd).1.status = 201 →
      ∃ u, (signupServerless hash users username pwd).2 = users ++ [u] ∧
        (u.role = "admin" ↔ users = [])) ∧
    ((signupServer hash users username pwd).1.status = 201 →
      ∃ u, (signupServer hash users username pwd).2 = users ++ [u] ∧
        (u.role = "admin" ↔ users = [])) := by
  constructor
  · intro h201
    simp only [signupServerless] at h201 ⊢
    split_ifs at h201 ⊢ with h1 h2 h3
    · simp at h201
    · simp at h201
    · exact ⟨_, rfl, iff_of_true rfl (List.length_eq_zero.mp h3)⟩
    · exact ⟨_, rfl,
        iff_of_false (by intro hc; simp at hc) fun he => h3 (List.length_eq_zero.mpr he)⟩
  · intro h201
    simp only [signupServer] at h201 ⊢
    split_ifs at h201 ⊢ with h1 h2 h3 h4
    · simp at h201
    · simp at h201
    · simp at h201
    · exact ⟨_, rfl, iff_of_true rfl (List.length_eq_zero.mp h4)⟩
    · exact ⟨_, rfl,
        iff_of_false (by intro hc; simp at hc) fun he => h4 (List.length_eq_zero.mpr he)⟩

/-- Witness for C8: on an empty store, both variants register "bob" as admin. -/
theorem signup_first_user_admin_witness :
    (∃ u, (signupServerless (fun s => s) [] "bob" "secret1").2 = [] ++ [u] ∧
      (u.role = "admin" ↔ ([] : List User) = [])) ∧
    (∃ u, (signupServer (fun s => s) [] "bob" "secret1").2 = [] ++ [u] ∧
      (u.role = "admin" ↔ ([] : List User) = [])) :=
  ⟨(signup_first_user_admin (fun s => s) [] "bob" "secret1").1 (by decide),
   (signup_first_user_admin (fun s => s) [] "bob" "secret1").2 (by decide)⟩

/-- C9 counterexample: on an empty photo store the server variant returns the
empty list, not the placeholder entries the serverless variant falls back to. -/
theorem getPhotosServer_empty_no_fallback :
    (getPhotosServer []).2 = [] ∧ mockPhotos ≠ [] ∧
    (getPhotosServerless []).2 = mockPhotos := by
  refine ⟨rfl, by decide, rfl⟩

/-- C9 amended: both variants answer 200 with the persisted metadata sorted
most-recent-first; on an empty store only the serverless variant substitutes
the nonempty placeholder list, while the server variant returns the empty
list. -/
theorem photos_listing (store : List Photo) :
    ((getPhotosServer store).1 = 200 ∧
      List.Sorted dateDesc (getPhotosServer store).2 ∧
      (getPhotosServer store).2.Perm store) ∧
    (store = [] →
      (getPhotosServerless store).2 = mockPhotos ∧ (getPhotosServer store).2 = []) ∧
    (store ≠ [] →
      (getPhotosServerless store).1 = 200 ∧
      (getPhotosServerless store).2 = sortByDateDesc store ∧
      List.Sorted dateDesc (getPhotosServerless store).2 ∧
      (getPhotosServerless store).2.Perm store) := by
  refine ⟨⟨rfl, List.sorted_insertionSort dateDesc store,
          List.perm_insertionSort dateDesc store⟩, ?_, ?_⟩
  · rintro rfl
    exact ⟨rfl, rfl⟩
  · intro hne
    have hlen : ¬ (sortByDateDesc store).length = 0 := by
      simpa [sortByDateDesc, List.length_insertionSort, List.length_eq_zero] using hne
    have e : getPhotosServerless store = (200, sortByDateDesc store) := by
      unfold getPhotosServerless
      simp only []
      rw [if_neg hlen]
    rw [e]
    exact ⟨rfl, rfl, List.sorted_insertionSort dateDesc store,
      List.perm_insertionSort dateDesc store⟩

/-- Witness for the amended C9 on an empty and a one-photo store. -/
theorem photos_listing_witness :
    ((getPhotosServerless []).2 = mockPhotos ∧ (getPhotosServer []).2 = []) ∧
    ((getPhotosServerless [⟨"a.jpg", "/uploads/a.jpg", 5⟩]).1 = 200 ∧
     (getPhotosServerless [⟨"a.jpg", "/uploads/a.jpg", 5⟩]).2 =
       sortByDateDesc [⟨"a.jpg", "/uploads/a.jpg", 5⟩] ∧
     List.Sorted dateDesc (getPhotosServerless [⟨"a.jpg", "/uploads/a.jpg", 5⟩]).2 ∧
     (getPhotosServerless [⟨"a.jpg", "/uploads/a.jpg", 5⟩]).2.Perm
       [⟨"a.jpg", "/uploads/a.jpg", 5⟩]) :=
  ⟨(photos_listing []).2.1 rfl, (photos_listing _).2.2 (by decide)⟩

theorem loginServerless_of_fails (verify : String → String → Bool)
    (sign : String → String → String) (users : List User) (un pw : String)
    (h : loginFails verify users un pw = true) :
    loginServerless verify sign users un pw = ⟨401, .err "Invalid credentials"⟩ := by
  unfold loginFails at h
  unfold loginServerless
  cases hfind : users.find? (fun u => u.username == un) with
  | none => rfl
  | some user =>
    rw [hfind] at h
    simp only [Bool.not_eq_true'] at h
    simp [h]

theorem loginServer_of_fails (verify : String → String → Bool)
    (sign : String → String → String) (users : List User) (un pw : String)
    (h : loginFails verify users un pw = true) :
    loginServer verify sign users un pw = ⟨401, .err "Invalid credentials"⟩ := by
  unfold loginFails at h
  unfold loginServer
  cases hfind : users.find? (fun u => u.username == un) with
  | none => rfl
  | some user =>
    rw [hfind] at h
    simp only [Bool.not_eq_true'] at h
    simp [h]

/-- C10: any two failing login requests — whether the username is unknown or
the password mismatches — get the identical 401 response with body
`{error: 'Invalid credentials'}`, in both backend variants. -/
theorem login_failures_indistinguishable
    (verifyA verifyB : String → String → Bool)
    (signA signB : String → String → String)
    (usersA usersB : List User) (unA pwA unB pwB : String)
    (hA : loginFails verifyA usersA unA pwA = true)
    (hB : loginFails verifyB usersB unB pwB = true) :
    loginServerless verifyA signA usersA unA pwA = ⟨401, .err "Invalid credentials"⟩ ∧
    loginServerless verifyA signA usersA unA pwA =
      loginServerless verifyB signB usersB unB pwB ∧
    loginServer verifyA signA usersA unA pwA = ⟨401, .err "Invalid credentials"⟩ ∧
    loginServer verifyA signA usersA unA pwA =
      loginServer verifyB signB usersB unB pwB := by
  have a1 := loginServerless_of_fails verifyA signA usersA unA pwA hA
  have b1 := loginServerless_of_fails verifyB signB usersB unB pwB hB
  have a2 := loginServer_of_fails verifyA signA usersA unA pwA hA
  have b2 := loginServer_of_fails verifyB signB usersB unB pwB hB
  exact ⟨a1, a1.trans b1.symm, a2, a2.trans b2.symm⟩

/-- Witness for C10: an unknown-username failure and a wrong-password failure
produce the same response in both variants. -/
theorem login_failures_indistinguishable_witness :
    loginServerless (fun _ _ => true) (fun _ _ => "t") [] "alice" "x" =
      ⟨401, .err "Invalid credentials"⟩ ∧
    loginServerless (fun _ _ => true) (fun _ _ => "t") [] "alice" "x" =
      loginServerless (fun _ _ => false) (fun _ _ => "t")
        [⟨"bob", "h", "user"⟩] "bob" "wrong" ∧
    loginServer (fun _ _ => true) (fun _ _ => "t") [] "alice" "x" =
      ⟨401, .err "Invalid credentials"⟩ ∧
    loginServer (fun _ _ => true) (fun _ _ => "t") [] "alice" "x" =
      loginServer (fun _ _ => false) (fun _ _ => "t")
        [⟨"bob", "h", "user"⟩] "bob" "wrong" :=
  login_failures_indistinguishable (fun _ _ => true) (fun _ _ => false)
    (fun _ _ => "t") (fun _ _ => "t") [] [⟨"bob", "h", "user"⟩]
    "alice" "x" "bob" "wrong" (by decide) (by decide)

/-- Witness for C6 at count 3, index 2. -/
theorem slideShow_cycle_witness :
    (0 ≤ nextSlide 2 3 ∧ nextSlide 2 3 < 3) ∧
    (0 ≤ prevSlide 2 3 ∧ prevSlide 2 3 < 3) ∧
    (fun j => nextSlide j 3)^[(3 : ℤ).toNat] 2 = 2 ∧
    (fun j => prevSlide j 3)^[(3 : ℤ).toNat] 2 = 2 :=
  slideShow_cycle 3 2 (by decide) (by decide) (by decide)
